import Mathlib

/-!
Verification of the wallet-qr-generator core against its specification.

The Python source is embedded shallowly: pure functions become Lean
functions over `List Char` / `Int` / association lists, fallible code
returns `Except`/`Option`, and the imaging and file-system primitives that
the pipeline calls (PIL drawing, qrcode matrix construction, file writes)
are passed in as oracle parameters so that the control flow of the source
is modelled exactly.
-/

/- ### Address classification (`wallet_qr/utils.py`, `validate_wallet_address`)

The regular expressions of the source are translated character-class by
character-class.  Character classes are decided on Unicode code points
(`Char.toNat`), exactly as `re` decides ranges such as `[a-zA-HJ-NP-Z0-9]`. -/

/-- Python `str.strip` whitespace set restricted to ASCII: space, \t, \n,
\r, \x0b, \x0c (code points 32 and 9–13). -/
def isPySpace (c : Char) : Bool :=
  c.toNat = 32 ∨ (9 ≤ c.toNat ∧ c.toNat ≤ 13)

/-- `[a-fA-F0-9]` of the ethereum pattern. -/
def isHexDigit (c : Char) : Bool :=
  (48 ≤ c.toNat ∧ c.toNat ≤ 57) ∨ (97 ≤ c.toNat ∧ c.toNat ≤ 102) ∨
    (65 ≤ c.toNat ∧ c.toNat ≤ 70)

/-- `[a-zA-HJ-NP-Z0-9]` of the bitcoin pattern: lowercase, digits,
uppercase without `I` (73) and `O` (79). -/
def inBtcClass (c : Char) : Bool :=
  (97 ≤ c.toNat ∧ c.toNat ≤ 122) ∨ (48 ≤ c.toNat ∧ c.toNat ≤ 57) ∨
    (65 ≤ c.toNat ∧ c.toNat ≤ 90 ∧ c.toNat ≠ 73 ∧ c.toNat ≠ 79)

/-- `[a-km-zA-HJ-NP-Z1-9]` of the litecoin pattern: lowercase without `l`
(108), uppercase without `I` and `O`, digits without `0`. -/
def inLtcClass (c : Char) : Bool :=
  (97 ≤ c.toNat ∧ c.toNat ≤ 122 ∧ c.toNat ≠ 108) ∨
    (49 ≤ c.toNat ∧ c.toNat ≤ 57) ∨
    (65 ≤ c.toNat ∧ c.toNat ≤ 90 ∧ c.toNat ≠ 73 ∧ c.toNat ≠ 79)

/-- `[1-9A-HJ-NP-Za-km-z]` of the solana pattern (base58 alphabet). -/
def inB58Class (c : Char) : Bool :=
  (49 ≤ c.toNat ∧ c.toNat ≤ 57) ∨
    (65 ≤ c.toNat ∧ c.toNat ≤ 90 ∧ c.toNat ≠ 73 ∧ c.toNat ≠ 79) ∨
    (97 ≤ c.toNat ∧ c.toNat ≤ 122 ∧ c.toNat ≠ 108)

/-- `[A-Za-z0-9+/]` of the base64 pattern. -/
def inB64Class (c : Char) : Bool :=
  (65 ≤ c.toNat ∧ c.toNat ≤ 90) ∨ (97 ≤ c.toNat ∧ c.toNat ≤ 122) ∨
    (48 ≤ c.toNat ∧ c.toNat ≤ 57) ∨ c.toNat = 43 ∨ c.toNat = 47

/-- `[A-Za-z0-9\-_+=/.]` of the generic pattern: alphanumeric plus
`-` (45), `_` (95), `+` (43), `=` (61), `/` (47), `.` (46). -/
def inGenericClass (c : Char) : Bool :=
  (65 ≤ c.toNat ∧ c.toNat ≤ 90) ∨ (97 ≤ c.toNat ∧ c.toNat ≤ 122) ∨
    (48 ≤ c.toNat ∧ c.toNat ≤ 57) ∨ c.toNat = 45 ∨ c.toNat = 95 ∨
    c.toNat = 43 ∨ c.toNat = 61 ∨ c.toNat = 47 ∨ c.toNat = 46

/-- Python `str.strip()` on a list of characters: drop whitespace from
both ends. -/
def pstrip (s : List Char) : List Char :=
  ((s.dropWhile isPySpace).reverse.dropWhile isPySpace).reverse

/-- Full match of `^(bc1|[13])[a-zA-HJ-NP-Z0-9]{25,39}$`.  The alternation
is a disjunction because a string starting with `bc1` can never take the
`[13]` branch and vice versa. -/
def bitcoinMatch (s : List Char) : Bool :=
  (s.take 3 = ['b', 'c', '1'] ∧ 25 ≤ (s.drop 3).length ∧
      (s.drop 3).length ≤ 39 ∧ (s.drop 3).all inBtcClass) ∨
    (s.take 1 = ['1'] ∨ s.take 1 = ['3']) ∧ 25 ≤ (s.drop 1).length ∧
      (s.drop 1).length ≤ 39 ∧ (s.drop 1).all inBtcClass

/-- Full match of `^0x[a-fA-F0-9]{40}$`. -/
def ethereumMatch (s : List Char) : Bool :=
  s.take 2 = ['0', 'x'] ∧ (s.drop 2).length = 40 ∧ (s.drop 2).all isHexDigit

/-- Full match of `^[LM3][a-km-zA-HJ-NP-Z1-9]{26,33}$`. -/
def litecoinMatch (s : List Char) : Bool :=
  (s.take 1 = ['L'] ∨ s.take 1 = ['M'] ∨ s.take 1 = ['3']) ∧
    26 ≤ (s.drop 1).length ∧ (s.drop 1).length ≤ 33 ∧
    (s.drop 1).all inLtcClass

/-- Full match of `^[1-9A-HJ-NP-Za-km-z]{32,44}$`. -/
def solanaMatch (s : List Char) : Bool :=
  32 ≤ s.length ∧ s.length ≤ 44 ∧ s.all inB58Class

/-- Length of the maximal run of `=` at the end of the string. -/
def trailingEqCount (s : List Char) : Nat :=
  (s.reverse.takeWhile (fun c => c = '=')).length

/-- Full match of `^[A-Za-z0-9+/]+={0,2}$`.  Since `=` is not in the
class, a match splits uniquely into a nonempty class part followed by the
maximal trailing `=` run, which must have length at most 2. -/
def base64Match (s : List Char) : Bool :=
  trailingEqCount s ≤ 2 ∧ 0 < s.length - trailingEqCount s ∧
    (s.take (s.length - trailingEqCount s)).all inB64Class

/-- Full match of `^[A-Za-z0-9\-_+=/.]+$`. -/
def genericMatch (s : List Char) : Bool :=
  0 < s.length ∧ s.all inGenericClass

/-- `validate_wallet_address` from `wallet_qr/utils.py`: reject raw
strings shorter than 10 characters, strip whitespace, then try the
patterns in the source's dictionary order (bitcoin, ethereum, litecoin,
solana, base64, generic); first match wins. -/
def validate_wallet_address (address : List Char) : Bool × String :=
  if address.isEmpty ∨ address.length < 10 then (false, "invalid")
  else
    let a := pstrip address
    if bitcoinMatch a then (true, "bitcoin")
    else if ethereumMatch a then (true, "ethereum")
    else if litecoinMatch a then (true, "litecoin")
    else if solanaMatch a then (true, "solana")
    else if base64Match a then (true, "base64")
    else if genericMatch a then (true, "generic")
    else (false, "unknown")

lemma dropWhile_eq_self_of_all {p : Char → Bool} {s : List Char}
    (h : ∀ c ∈ s, p c = false) : s.dropWhile p = s := by
  cases s with
  | nil => rfl
  | cons c t => simp [List.dropWhile, h c (List.mem_cons_self c t)]

lemma pstrip_eq_self_of_no_space {s : List Char}
    (h : ∀ c ∈ s, isPySpace c = false) : pstrip s = s := by
  unfold pstrip
  rw [dropWhile_eq_self_of_all h, dropWhile_eq_self_of_all, List.reverse_reverse]
  intro c hc
  exact h c (List.mem_reverse.mp hc)

lemma isPySpace_of_hex {c : Char} (h : isHexDigit c = true) :
    isPySpace c = false := by
  simp only [isHexDigit, decide_eq_true_eq] at h
  simp only [isPySpace, decide_eq_false_iff_not]
  omega

lemma bitcoinMatch_cons_0x (h : List Char) :
    bitcoinMatch ('0' :: 'x' :: h) = false := by
  simp [bitcoinMatch, List.take_succ_cons]

lemma ethereumMatch_cons_0x (h : List Char) (hlen : h.length = 40)
    (hhex : ∀ c ∈ h, isHexDigit c = true) :
    ethereumMatch ('0' :: 'x' :: h) = true := by
  simpa [ethereumMatch, List.take_succ_cons, hlen, List.all_eq_true] using hhex

/-- C6: every string of the form `0x` followed by exactly 40 hex digits is
classified `(true, "ethereum")`: the bitcoin pattern, tried first, cannot
match it. -/
theorem C6_ethereum_shape_classified (h : List Char) (hlen : h.length = 40)
    (hhex : ∀ c ∈ h, isHexDigit c = true) :
    validate_wallet_address ('0' :: 'x' :: h) = (true, "ethereum") := by
  have hnospace : ∀ c ∈ ('0' :: 'x' :: h), isPySpace c = false := by
    intro c hc
    simp only [List.mem_cons] at hc
    rcases hc with rfl | rfl | hc
    · decide
    · decide
    · exact isPySpace_of_hex (hhex c hc)
  have hstrip : pstrip ('0' :: 'x' :: h) = '0' :: 'x' :: h :=
    pstrip_eq_self_of_no_space hnospace
  unfold validate_wallet_address
  rw [if_neg]
  · rw [hstrip]
    simp [bitcoinMatch_cons_0x h, ethereumMatch_cons_0x h hlen hhex]
  · simp [hlen]

/-- Witness for C6 at the concrete address `0x` + forty `0` digits. -/
theorem C6_ethereum_shape_classified_witness :
    validate_wallet_address ('0' :: 'x' :: List.replicate 40 '0') =
      (true, "ethereum") :=
  C6_ethereum_shape_classified (List.replicate 40 '0') (by simp)
    (fun c hc => by rw [List.eq_of_mem_replicate hc]; decide)

/-- C10: the 10-character minimum is enforced on the raw string before
trimming: the input `"a-b.c_d-e "` has raw length 10, strips to 9
characters, and is classified `(true, "generic")` rather than
`(false, "invalid")`. -/
theorem C10_min_length_before_strip :
    (['a', '-', 'b', '.', 'c', '_', 'd', '-', 'e', ' '] : List Char).length = 10 ∧
    (pstrip ['a', '-', 'b', '.', 'c', '_', 'd', '-', 'e', ' ']).length = 9 ∧
    validate_wallet_address ['a', '-', 'b', '.', 'c', '_', 'd', '-', 'e', ' '] =
      (true, "generic") := by
  decide

/- ### Style configuration (`wallet_qr/styles.py`)

`QRConfig` is the dataclass of the source; the free-form `custom_css`
extension dictionary becomes an association list of dynamically typed
values, and `to_dict` / `from_dict` move the configuration through the
flat key-value representation that `json.dump` persists. -/

/-- A value stored in the `custom_css` extension dictionary (the source
stores booleans such as `{"gradient": True}` and palette-name strings
under `"gradient_name"`). -/
inductive CssVal where
  | cbool : Bool → CssVal
  | cstr : String → CssVal
  | cint : Int → CssVal
deriving DecidableEq

/-- The `QRConfig` dataclass with the source's field defaults. -/
structure QRConfig where
  version : Int := 5
  error_correction : String := "H"
  box_size : Int := 12
  border : Int := 4
  fill_color : String := "#2E86C1"
  back_color : String := "white"
  title : String := "CRYPTO WALLET"
  subtitle : String := ""
  show_address : Bool := true
  show_qr_border : Bool := true
  add_logo : Bool := false
  logo_path : Option String := none
  logo_size : Int := 80
  watermark : String := ""
  custom_css : List (String × CssVal) := []
deriving DecidableEq

/-- ASCII lowercasing of one character, as Python `str.lower` acts on
the preset names in use (all ASCII). -/
def pyCharLower (c : Char) : Char :=
  if 65 ≤ c.toNat ∧ c.toNat ≤ 90 then Char.ofNat (c.toNat + 32) else c

/-- Python `str.lower()` restricted to ASCII strings. -/
def pyLower (s : String) : String :=
  ⟨s.data.map pyCharLower⟩

/-- `QRConfig.from_preset`: the six named presets of the source; an
unknown name falls back to the default configuration. -/
def QRConfig.from_preset (preset : String) : QRConfig :=
  let p := pyLower preset
  if p = "professional" then
    { version := 5, error_correction := "H", box_size := 12, border := 4,
      fill_color := "#2E86C1", title := "CRYPTO WALLET ADDRESS",
      subtitle := "Secure Digital Asset Storage", show_address := true,
      show_qr_border := true, add_logo := true, logo_size := 100 }
  else if p = "minimalist" then
    { version := 4, error_correction := "Q", box_size := 15, border := 3,
      fill_color := "black", title := "", show_address := false,
      show_qr_border := false, add_logo := false }
  else if p = "dark" then
    { version := 5, error_correction := "H", box_size := 10, border := 4,
      fill_color := "#27AE60", back_color := "#1C2833",
      title := "CRYPTO WALLET", subtitle := "Scan to Transfer",
      show_address := true, show_qr_border := true, add_logo := false }
  else if p = "gradient" then
    { version := 4, error_correction := "H", box_size := 12, border := 3,
      fill_color := "#FF6B6B", title := "WALLET ADDRESS",
      subtitle := "Digital Currency", show_address := true,
      show_qr_border := true, add_logo := false,
      custom_css := [("gradient", CssVal.cbool true)] }
  else if p = "business" then
    { version := 6, error_correction := "H", box_size := 10, border := 4,
      fill_color := "#2C3E50", title := "BUSINESS WALLET",
      subtitle := "Official Corporate Address", show_address := true,
      show_qr_border := true, add_logo := true, logo_size := 120 }
  else if p = "premium" then
    { version := 7, error_correction := "H", box_size := 14, border := 6,
      fill_color := "#F39C12", back_color := "#FEF9E7",
      title := "PREMIUM WALLET", subtitle := "Gold Standard Security",
      show_address := true, show_qr_border := true, add_logo := true,
      logo_size := 150, watermark := "VERIFIED" }
  else
    {}

/-- A value of the flat dictionary produced by `QRConfig.to_dict`. -/
inductive PyValue where
  | vint : Int → PyValue
  | vstr : String → PyValue
  | vbool : Bool → PyValue
  | vnone : PyValue
  | vdict : List (String × CssVal) → PyValue
deriving DecidableEq

/-- `QRConfig.to_dict`: the flat 15-key dictionary of the source, in the
source's key order; `logo_path = None` is stored as Python `None`. -/
def QRConfig.to_dict (c : QRConfig) : List (String × PyValue) :=
  [("version", PyValue.vint c.version),
   ("error_correction", PyValue.vstr c.error_correction),
   ("box_size", PyValue.vint c.box_size),
   ("border", PyValue.vint c.border),
   ("fill_color", PyValue.vstr c.fill_color),
   ("back_color", PyValue.vstr c.back_color),
   ("title", PyValue.vstr c.title),
   ("subtitle", PyValue.vstr c.subtitle),
   ("show_address", PyValue.vbool c.show_address),
   ("show_qr_border", PyValue.vbool c.show_qr_border),
   ("add_logo", PyValue.vbool c.add_logo),
   ("logo_path", match c.logo_path with
                 | none => PyValue.vnone
                 | some p => PyValue.vstr p),
   ("logo_size", PyValue.vint c.logo_size),
   ("watermark", PyValue.vstr c.watermark),
   ("custom_css", PyValue.vdict c.custom_css)]

def getInt (d : List (String × PyValue)) (k : String) : Option Int :=
  match d.lookup k with
  | some (PyValue.vint n) => some n
  | _ => none

def getStr (d : List (String × PyValue)) (k : String) : Option String :=
  match d.lookup k with
  | some (PyValue.vstr s) => some s
  | _ => none

def getBool (d : List (String × PyValue)) (k : String) : Option Bool :=
  match d.lookup k with
  | some (PyValue.vbool b) => some b
  | _ => none

def getOptStr (d : List (String × PyValue)) (k : String) :
    Option (Option String) :=
  match d.lookup k with
  | some PyValue.vnone => some none
  | some (PyValue.vstr s) => some (some s)
  | _ => none

def getDict (d : List (String × PyValue)) (k : String) :
    Option (List (String × CssVal)) :=
  match d.lookup k with
  | some (PyValue.vdict m) => some m
  | _ => none

/-- `QRConfig.from_dict`, i.e. `cls(**data)`: rebuild a configuration
from the flat dictionary.  The embedding is typed, so it is defined on
the well-typed dictionaries that `to_dict` produces (on which it agrees
with the Python constructor) and returns `none` elsewhere. -/
def QRConfig.from_dict (d : List (String × PyValue)) : Option QRConfig := do
  let version ← getInt d "version"
  let error_correction ← getStr d "error_correction"
  let box_size ← getInt d "box_size"
  let border ← getInt d "border"
  let fill_color ← getStr d "fill_color"
  let back_color ← getStr d "back_color"
  let title ← getStr d "title"
  let subtitle ← getStr d "subtitle"
  let show_address ← getBool d "show_address"
  let show_qr_border ← getBool d "show_qr_border"
  let add_logo ← getBool d "add_logo"
  let logo_path ← getOptStr d "logo_path"
  let logo_size ← getInt d "logo_size"
  let watermark ← getStr d "watermark"
  let custom_css ← getDict d "custom_css"
  pure { version := version, error_correction := error_correction,
         box_size := box_size, border := border, fill_color := fill_color,
         back_color := back_color, title := title, subtitle := subtitle,
         show_address := show_address, show_qr_border := show_qr_border,
         add_logo := add_logo, logo_path := logo_path,
         logo_size := logo_size, watermark := watermark,
         custom_css := custom_css }

/- ### Layout (`wallet_qr/styles.py`, `Layout.auto`)

Coordinates are integers; positions can be negative for small QR images,
which is exactly what the bounds claims are about. -/

/-- The `Layout` dataclass. -/
structure Layout where
  width : Int
  height : Int
  padding : Int := 40
  qr_position : Int × Int := (0, 0)
  title_position : Int × Int := (0, 0)
  subtitle_position : Int × Int := (0, 0)
  address_position : Int × Int := (0, 0)
  logo_position : Int × Int := (0, 0)
  watermark_position : Int × Int := (0, 0)
deriving DecidableEq

/-- `Layout.auto`: the auto-layout computation of the source.  Python's
truthiness test `if config.title:` is the nonemptiness test on the
string, and `height_extra` starts from the base value 40 before the
per-element increments are added. -/
def Layout.auto (qr_size : Int × Int) (config : QRConfig) : Layout :=
  let qr_width := qr_size.1
  let qr_height := qr_size.2
  let height_extra : Int := 40
  let height_extra := if config.title ≠ "" then height_extra + 60 else height_extra
  let height_extra := if config.subtitle ≠ "" then height_extra + 30 else height_extra
  let height_extra := if config.show_address then height_extra + 80 else height_extra
  let height_extra := if config.watermark ≠ "" then height_extra + 30 else height_extra
  let padding : Int := 40
  let width := qr_width + padding * 2
  let height := qr_height + padding * 2 + height_extra
  let qr_x := padding
  let qr_y := padding + (if config.title ≠ "" then (60 : Int) else 20)
  let title_y : Int := 30
  let subtitle_y := title_y + 40
  { width := width, height := height, padding := padding,
    qr_position := (qr_x, qr_y),
    title_position := (padding, title_y),
    subtitle_position := (padding, subtitle_y),
    address_position := (padding, qr_y + qr_height + 20),
    logo_position := (width - padding - 50, 30),
    watermark_position := (width - padding - 100, height - 30) }

/-- The claimed invariant of C9: every element position lies within
`[0, width) × [0, height)` of the computed canvas. -/
def Layout.positionsInBounds (l : Layout) : Prop :=
  (0 ≤ l.qr_position.1 ∧ l.qr_position.1 < l.width ∧
     0 ≤ l.qr_position.2 ∧ l.qr_position.2 < l.height) ∧
  (0 ≤ l.title_position.1 ∧ l.title_position.1 < l.width ∧
     0 ≤ l.title_position.2 ∧ l.title_position.2 < l.height) ∧
  (0 ≤ l.subtitle_position.1 ∧ l.subtitle_position.1 < l.width ∧
     0 ≤ l.subtitle_position.2 ∧ l.subtitle_position.2 < l.height) ∧
  (0 ≤ l.address_position.1 ∧ l.address_position.1 < l.width ∧
     0 ≤ l.address_position.2 ∧ l.address_position.2 < l.height) ∧
  (0 ≤ l.logo_position.1 ∧ l.logo_position.1 < l.width ∧
     0 ≤ l.logo_position.2 ∧ l.logo_position.2 < l.height) ∧
  (0 ≤ l.watermark_position.1 ∧ l.watermark_position.1 < l.width ∧
     0 ≤ l.watermark_position.2 ∧ l.watermark_position.2 < l.height)

instance (l : Layout) : Decidable l.positionsInBounds := by
  unfold Layout.positionsInBounds
  infer_instance

lemma from_preset_minimalist_eq :
    QRConfig.from_preset "minimalist" =
      { version := 4, error_correction := "Q", box_size := 15, border := 3,
        fill_color := "black", title := "", show_address := false,
        show_qr_border := false, add_logo := false } := by
  decide

/-- Counterexample to C1: for the minimalist preset and a 100×100 QR
image, the computed height is 220 = QR height + 2×40 padding + 40 base
extra, not QR height + 2×40. -/
theorem C1_minimalist_height_cex :
    (Layout.auto (100, 100) (QRConfig.from_preset "minimalist")).height = 220 ∧
    (Layout.auto (100, 100) (QRConfig.from_preset "minimalist")).height ≠
      100 + 2 * 40 := by
  decide

/-- C1 (amended): width = QR width + 2×padding, and height = QR height +
2×padding + a base extra of 40 + the per-element increments (title +60,
subtitle +30, address +80, watermark +30); with all optional elements
absent (the minimalist preset) the height is QR height + 2×40 + 40. -/
theorem C1_layout_dimensions (qw qh : Int) (c : QRConfig) :
    (Layout.auto (qw, qh) c).width = qw + 2 * 40 ∧
    (Layout.auto (qw, qh) c).height =
      qh + 2 * 40 + 40 + (if c.title ≠ "" then 60 else 0) +
        (if c.subtitle ≠ "" then 30 else 0) +
        (if c.show_address then 80 else 0) +
        (if c.watermark ≠ "" then 30 else 0) ∧
    (Layout.auto (qw, qh) (QRConfig.from_preset "minimalist")).height =
      qh + 2 * 40 + 40 := by
  refine ⟨by simp only [Layout.auto]; ring, ?_, ?_⟩
  · simp only [Layout.auto]
    split_ifs <;> ring
  · rw [from_preset_minimalist_eq]
    simp only [Layout.auto]
    norm_num

/-- C7: enabling any single optional text element while everything else
is fixed adds exactly its fixed increment to the computed height (title
+60, subtitle +30, address +80, watermark +30) and never changes the
width. -/
theorem C7_single_element_increment (qr : Int × Int) (c : QRConfig) :
    (∀ t : String, c.title = "" → t ≠ "" →
      (Layout.auto qr { c with title := t }).height =
          (Layout.auto qr c).height + 60 ∧
        (Layout.auto qr { c with title := t }).width =
          (Layout.auto qr c).width) ∧
    (∀ s : String, c.subtitle = "" → s ≠ "" →
      (Layout.auto qr { c with subtitle := s }).height =
          (Layout.auto qr c).height + 30 ∧
        (Layout.auto qr { c with subtitle := s }).width =
          (Layout.auto qr c).width) ∧
    (c.show_address = false →
      (Layout.auto qr { c with show_address := true }).height =
          (Layout.auto qr c).height + 80 ∧
        (Layout.auto qr { c with show_address := true }).width =
          (Layout.auto qr c).width) ∧
    (∀ w : String, c.watermark = "" → w ≠ "" →
      (Layout.auto qr { c with watermark := w }).height =
          (Layout.auto qr c).height + 30 ∧
        (Layout.auto qr { c with watermark := w }).width =
          (Layout.auto qr c).width) := by
  refine ⟨fun t h1 h2 => ?_, fun s h1 h2 => ?_, fun h1 => ?_,
    fun w h1 h2 => ?_⟩ <;>
    simp only [Layout.auto] <;> split_ifs <;> simp_all <;> omega

/-- A configuration with every optional text element disabled, used as
the base point of the C7 witness. -/
def cfgBare : QRConfig :=
  { title := "", subtitle := "", show_address := false, watermark := "" }

/-- Witness for C7 at a 100×100 QR size and the all-disabled base
configuration. -/
theorem C7_single_element_increment_witness :
    (Layout.auto (100, 100) { cfgBare with title := "T" }).height =
        (Layout.auto (100, 100) cfgBare).height + 60 ∧
    (Layout.auto (100, 100) { cfgBare with title := "T" }).width =
        (Layout.auto (100, 100) cfgBare).width ∧
    (Layout.auto (100, 100) { cfgBare with subtitle := "S" }).height =
        (Layout.auto (100, 100) cfgBare).height + 30 ∧
    (Layout.auto (100, 100) { cfgBare with show_address := true }).height =
        (Layout.auto (100, 100) cfgBare).height + 80 ∧
    (Layout.auto (100, 100) { cfgBare with watermark := "W" }).height =
        (Layout.auto (100, 100) cfgBare).height + 30 := by
  have T := C7_single_element_increment (100, 100) cfgBare
  exact ⟨(T.1 "T" rfl (by decide)).1, (T.1 "T" rfl (by decide)).2,
    (T.2.1 "S" rfl (by decide)).1, (T.2.2.1 rfl).1,
    (T.2.2.2 "W" rfl (by decide)).1⟩

/-- Counterexample to C9: at the degenerate QR size (0, 0) the logo
position has x-coordinate −10 and the watermark position has
x-coordinate −60, outside `[0, width)`. -/
theorem C9_zero_size_out_of_bounds :
    ¬ (Layout.auto (0, 0) (QRConfig.from_preset "minimalist")).positionsInBounds := by
  decide

/-- C9 (amended): for every configuration, all six element positions lie
within `[0, width) × [0, height)` provided the QR width is at least 60
(the watermark x-coordinate is QR width − 60) and the QR height is
non-negative. -/
theorem C9_positions_in_bounds (qw qh : Int) (c : QRConfig)
    (hw : 60 ≤ qw) (hh : 0 ≤ qh) :
    (Layout.auto (qw, qh) c).positionsInBounds := by
  simp only [Layout.auto, Layout.positionsInBounds]
  split_ifs <;> norm_num <;> omega

/-- Witness for C9 at QR size 100×100 and the premium preset. -/
theorem C9_positions_in_bounds_witness :
    (60 : Int) ≤ 100 ∧ (0 : Int) ≤ 100 ∧
    (Layout.auto (100, 100) (QRConfig.from_preset "premium")).positionsInBounds :=
  ⟨by decide, by decide,
    C9_positions_in_bounds 100 100 (QRConfig.from_preset "premium")
      (by decide) (by decide)⟩

/-- C5: serializing any configuration to the flat dictionary and reading
it back yields the same configuration field-for-field, the `custom_css`
extension map included. -/
theorem C5_config_roundtrip (c : QRConfig) :
    QRConfig.from_dict (QRConfig.to_dict c) = some c := by
  cases c with
  | mk version ec box border fill back title subtitle sa sb al lp ls wm css =>
    cases lp <;> rfl

/- ### QR generation pipeline (`wallet_qr/generator.py`)

The imaging backend (PIL) and the `qrcode` library are external
collaborators; their primitives enter the embedding as oracle functions
that may fail, so the control flow of `QRGenerator.generate` — which
stage runs when, what is caught, what is re-raised — is modelled exactly
as in the source. -/

/-- A Python exception as observed by a caller: its type and the message
`str(e)` would print. -/
inductive PyError where
  | generationError : String → PyError
  | nameError : String → PyError
  | otherError : String → PyError
deriving DecidableEq

/-- `str(e)`: the message carried by the exception. -/
def PyError.msg : PyError → String
  | PyError.generationError m => m
  | PyError.nameError m => m
  | PyError.otherError m => m

/-- An image is abstracted to its pixel dimensions, the only attribute
the layout computation reads. -/
structure Img where
  width : Int
  height : Int
deriving DecidableEq

/-- The five fixed three-color palettes of `QRGenerator.gradients`. -/
def gradients : List (String × List (Nat × Nat × Nat)) :=
  [("sunset", [(255, 107, 107), (255, 167, 38), (255, 193, 7)]),
   ("ocean", [(41, 128, 185), (52, 152, 219), (93, 173, 226)]),
   ("forest", [(39, 174, 96), (46, 204, 113), (88, 214, 141)]),
   ("royal", [(142, 68, 173), (155, 89, 182), (165, 105, 189)]),
   ("fire", [(231, 76, 60), (235, 152, 78), (241, 196, 15)])]

/-- The palette selected by `_create_gradient_qr`:
`custom_css.get("gradient_name", "sunset")` followed by
`gradients.get(name, gradients["sunset"])`.  A non-string value under
`"gradient_name"` names no palette and falls back to sunset as well. -/
def selectedGradient (c : QRConfig) : List (Nat × Nat × Nat) :=
  let gradient_name := match c.custom_css.lookup "gradient_name" with
                       | some (CssVal.cstr s) => s
                       | _ => "sunset"
  (gradients.lookup gradient_name).getD
    [(255, 107, 107), (255, 167, 38), (255, 193, 7)]

/-- The color the spec assigns to the dark module at matrix coordinates
(x, y): palette index `(x + y) mod paletteLength` (the source computes
`color_idx = (x + y) % len(gradient_colors)` before crashing). -/
def gradientModuleColor (c : QRConfig) (x y : Nat) : Nat × Nat × Nat :=
  let colors := selectedGradient c
  colors.getD ((x + y) % colors.length) (0, 0, 0)

/-- The drawing loop of `_create_gradient_qr`.  For each dark module it
computes the palette color and box position and then evaluates
`y_pos + self_config.box_size` — `self_config` is an undefined name, so
the first dark module raises `NameError`; a matrix with no dark module
completes the loop.  (The source iterates x over `range(len(matrix))`;
QR matrices are square, and row cells are read positionally.) -/
def gradientDrawLoop : List (List Bool) → Except PyError Unit
  | [] => Except.ok ()
  | row :: rest =>
    if row.any (fun b => b) then
      Except.error (PyError.nameError "name 'self_config' is not defined")
    else gradientDrawLoop rest

/-- `_create_gradient_qr`, given the module matrix the `qrcode` library
would produce for the data: builds the blank image, selects the palette,
runs the drawing loop, and wraps any exception into a `GenerationError`
with the `Failed to create gradient QR code: ` prefix. -/
def create_gradient_qr (c : QRConfig) (matrix : List (List Bool)) :
    Except PyError Img :=
  let size := (matrix.length : Int) * c.box_size + 2 * c.border * c.box_size
  let _colors := selectedGradient c
  match gradientDrawLoop matrix with
  | Except.ok _ => Except.ok { width := size, height := size }
  | Except.error e =>
    Except.error (PyError.generationError
      ("Failed to create gradient QR code: " ++ e.msg))

/-- Oracle functions for the external imaging and file-system primitives
used by `QRGenerator.generate`.  Each models a call that may raise. -/
structure Stages where
  get_matrix : String → Except PyError (List (List Bool))
  create_base_qr : String → Except PyError Img
  add_logo : Img → Img
  create_background : Int × Int → String → Except PyError Img
  add_emboss : Img → Except PyError Img
  draw_title : Img → Except PyError Unit
  draw_subtitle : Img → Except PyError Unit
  draw_address : Img → Except PyError Unit
  add_watermark : Img → Except PyError Img
  save : Img → String → Except PyError Unit
  getsize : String → Except PyError Int

/-- `"gradient" in self.config.custom_css`. -/
def hasGradient (c : QRConfig) : Bool :=
  (c.custom_css.lookup "gradient").isSome

/-- The result dictionary of `QRGenerator.generate` (the human-readable
size string, produced by floating-point formatting, is outside the
embedding). -/
structure GenInfo where
  filepath : String
  size_bytes : Int
  dimensions : Int × Int
  address : String
  style : String
deriving DecidableEq

/-- The `try`-block body of `QRGenerator.generate`: the strict stage
sequence of the source.  `_add_logo` catches all of its own exceptions
and degrades to returning the image unchanged, so it is total. -/
def generate_body (S : Stages) (c : QRConfig) (data output_path : String) :
    Except PyError GenInfo := do
  let qr_img ←
    if hasGradient c then do
      let matrix ← S.get_matrix data
      create_gradient_qr c matrix
    else S.create_base_qr data
  let qr_img := if c.add_logo then S.add_logo qr_img else qr_img
  let layout := Layout.auto (qr_img.width, qr_img.height) c
  let final_img ← S.create_background (layout.width, layout.height)
    (if hasGradient c then "gradient" else "solid")
  let final_img ← if c.show_qr_border then S.add_emboss final_img
                  else pure final_img
  if c.title ≠ "" then S.draw_title final_img
  if c.subtitle ≠ "" then S.draw_subtitle final_img
  if c.show_address then S.draw_address final_img
  let final_img ← if c.watermark ≠ "" then S.add_watermark final_img
                  else pure final_img
  S.save final_img output_path
  let file_size ← S.getsize output_path
  pure { filepath := output_path, size_bytes := file_size,
         dimensions := (final_img.width, final_img.height),
         address := data,
         style := if hasGradient c then "gradient" else "standard" }

/-- `QRGenerator.generate`: the whole body runs inside one
`try`/`except Exception`, and any exception is re-raised as
`GenerationError(f"Failed to generate QR code: {e}")`. -/
def generate (S : Stages) (c : QRConfig) (data output_path : String) :
    Except PyError GenInfo :=
  match generate_body S c data output_path with
  | Except.ok r => Except.ok r
  | Except.error e =>
    Except.error (PyError.generationError
      ("Failed to generate QR code: " ++ e.msg))

/-- The loop of `QRGenerator.generate_batch`, carrying the 1-based index.
Per item the `try` block generates and appends the result and only then
invokes the progress callback; the `except` block logs and continues, so
a failed item produces neither a result nor a callback invocation.  The
callback is modelled by recording its argument triple
(index, total, address). -/
def batchLoop (gen : Nat → String → Except PyError GenInfo) (total : Nat) :
    Nat → List String → List GenInfo × List (Nat × Nat × String)
  | _, [] => ([], [])
  | i, address :: rest =>
    let tail := batchLoop gen total (i + 1) rest
    match gen i address with
    | Except.ok r => (r :: tail.1, (i, total, address) :: tail.2)
    | Except.error _ => tail

/-- `QRGenerator.generate_batch` with a supplied progress callback: the
per-item generation (filename derivation plus `generate`) enters as the
oracle `gen`, and the returned pair is (result list, list of callback
invocations in order). -/
def generate_batch (gen : Nat → String → Except PyError GenInfo)
    (addresses : List String) :
    List GenInfo × List (Nat × Nat × String) :=
  batchLoop gen addresses.length 1 addresses

lemma gradientDrawLoop_error {matrix : List (List Bool)}
    (hdark : matrix.any (fun row => row.any (fun b => b)) = true) :
    gradientDrawLoop matrix =
      Except.error (PyError.nameError "name 'self_config' is not defined") := by
  induction matrix with
  | nil => simp at hdark
  | cons row rest ih =>
    simp only [List.any_cons, Bool.or_eq_true] at hdark
    unfold gradientDrawLoop
    cases hr : row.any (fun b => b) with
    | true => simp
    | false =>
      simp only [Bool.false_eq_true, if_false]
      apply ih
      rcases hdark with h | h
      · rw [hr] at h
        exact absurd h (by simp)
      · exact h

/-- C3 (the code, as written): whenever the module matrix contains at
least one dark module — as every real QR matrix does — the gradient
rasterizer raises at that module, because the drawn rectangle's lower
edge is computed from the undefined name `self_config`; the internal
`NameError` is wrapped into a `GenerationError`.  No module is ever
colored by `(x + y) mod paletteLength`. -/
theorem C3_gradient_render_raises (c : QRConfig) (matrix : List (List Bool))
    (hdark : matrix.any (fun row => row.any (fun b => b)) = true) :
    create_gradient_qr c matrix =
      Except.error (PyError.generationError
        "Failed to create gradient QR code: name 'self_config' is not defined") := by
  unfold create_gradient_qr
  rw [gradientDrawLoop_error hdark]
  rfl

/-- Witness for C3 at the gradient preset and the one-dark-module
matrix. -/
theorem C3_gradient_render_raises_witness :
    create_gradient_qr (QRConfig.from_preset "gradient") [[true]] =
      Except.error (PyError.generationError
        "Failed to create gradient QR code: name 'self_config' is not defined") :=
  C3_gradient_render_raises (QRConfig.from_preset "gradient") [[true]]
    (by decide)

/-- C4: for every configuration, data string, output path and every
behavior of the external imaging primitives, `generate` either succeeds
or fails with exactly one exception type, `GenerationError`, whose
message carries the underlying cause's message; no stage-specific
exception type escapes. -/
theorem C4_generate_single_exception_type (S : Stages) (c : QRConfig)
    (data output_path : String) :
    (∃ r, generate S c data output_path = Except.ok r ∧
      generate_body S c data output_path = Except.ok r) ∨
    (∃ e, generate_body S c data output_path = Except.error e ∧
      generate S c data output_path =
        Except.error (PyError.generationError
          ("Failed to generate QR code: " ++ e.msg))) := by
  cases hb : generate_body S c data output_path with
  | ok r => exact Or.inl ⟨r, by simp [generate, hb], rfl⟩
  | error e => exact Or.inr ⟨e, rfl, by simp [generate, hb]⟩

lemma batchLoop_snd (gen : Nat → String → Except PyError GenInfo)
    (total : Nat) (addrs : List String) (i : Nat) :
    (batchLoop gen total i addrs).2 =
      ((List.range' i addrs.length).zip addrs).filterMap
        (fun p => match gen p.1 p.2 with
                  | Except.ok _ => some (p.1, total, p.2)
                  | Except.error _ => none) := by
  induction addrs generalizing i with
  | nil => rfl
  | cons a rest ih =>
    simp only [batchLoop, List.length_cons, List.range', List.zip_cons_cons,
      List.filterMap_cons]
    cases hg : gen i a with
    | ok r => simp [ih (i + 1)]
    | error e => simp [ih (i + 1)]

lemma batchLoop_fst (gen : Nat → String → Except PyError GenInfo)
    (total : Nat) (addrs : List String) (i : Nat) :
    (batchLoop gen total i addrs).1 =
      ((List.range' i addrs.length).zip addrs).filterMap
        (fun p => (gen p.1 p.2).toOption) := by
  induction addrs generalizing i with
  | nil => rfl
  | cons a rest ih =>
    simp only [batchLoop, List.length_cons, List.range', List.zip_cons_cons,
      List.filterMap_cons]
    cases hg : gen i a with
    | ok r => simp [ih (i + 1), Except.toOption, hg]
    | error e => simp [ih (i + 1), Except.toOption, hg]

/-- A per-item generator for the C2 counterexample: item `"b"` fails,
all other items succeed. -/
def genFailB (_i : Nat) (a : String) : Except PyError GenInfo :=
  if a = "b" then
    Except.error (PyError.generationError "Failed to generate QR code: boom")
  else
    Except.ok { filepath := a, size_bytes := 0, dimensions := (0, 0),
                address := a, style := "standard" }

/-- Counterexample to C2: for the batch `["a", "b", "c"]` whose second
item fails, the progress callback is invoked twice, not three times —
the callback call sits inside the `try` block after the result is
appended, so a failing item skips it. -/
theorem C2_callback_skipped_on_failure_cex :
    (generate_batch genFailB ["a", "b", "c"]).2 =
      [(1, 3, "a"), (3, 3, "c")] ∧
    ¬ (generate_batch genFailB ["a", "b", "c"]).2.length = 3 := by
  decide

/-- C2 (amended): the progress callback is invoked exactly once per
successfully generated item — with the item's 1-based index, the total
count and the source data string — and not at all for failing items, so
a batch of 3 with one failing item invokes it exactly 2 times. -/
theorem C2_callback_per_success (gen : Nat → String → Except PyError GenInfo)
    (addresses : List String) :
    (generate_batch gen addresses).2 =
      ((List.range' 1 addresses.length).zip addresses).filterMap
        (fun p => match gen p.1 p.2 with
                  | Except.ok _ => some (p.1, addresses.length, p.2)
                  | Except.error _ => none) :=
  batchLoop_snd gen addresses.length addresses 1

/-- C8: the batch never fails as a whole: the result list is exactly the
successful generations, in input order (the failing items are omitted),
and it never exceeds the input count. -/
theorem C8_batch_partial_failure (gen : Nat → String → Except PyError GenInfo)
    (addresses : List String) :
    (generate_batch gen addresses).1 =
      ((List.range' 1 addresses.length).zip addresses).filterMap
        (fun p => (gen p.1 p.2).toOption) ∧
    (generate_batch gen addresses).1.length ≤ addresses.length := by
  unfold generate_batch
  refine ⟨batchLoop_fst gen addresses.length addresses 1, ?_⟩
  rw [batchLoop_fst gen addresses.length addresses 1]
  calc (((List.range' 1 addresses.length).zip addresses).filterMap
          (fun p => (gen p.1 p.2).toOption)).length
      ≤ ((List.range' 1 addresses.length).zip addresses).length :=
        List.length_filterMap_le _ _
    _ ≤ addresses.length := by rw [List.length_zip]; omega
